import Mathlib

/-!
Shallow embedding of `src/export_helpers.py` (repository `dataio-helpers`).

Python dictionaries with a fixed key set are embedded as Lean structures;
optional keys become `Option` fields.  Python lists are Lean `List`s; the
negative index `xs[-1]` is `List.getLast?` (raising `IndexError` on the
empty list), and `xs[0]` is `List.head?`.  Raised exceptions are modelled
with `Except PyErr`; an `except KeyError` / `except IndexError` clause
becomes a `match` on the corresponding error.  `str.lower` / `str.upper`
are `pyLower` / `pyUpper` (ASCII case-mapping over the character list; the
configuration strings in the job files are ASCII).
-/

deriving instance DecidableEq for Except

namespace ExportHelpers

/-- Python exception kinds relevant to `export_helpers.py`. -/
inductive PyErr where
  | keyError
  | indexError
deriving DecidableEq, Repr

/-- Python `str.lower()` (the job-configuration strings are ASCII, where
`Char.toLower` agrees with Python), written over the character list so that
it reduces by kernel computation. -/
def pyLower (s : String) : String := String.mk (s.data.map Char.toLower)

/-- Python `str.upper()` (ASCII, see `pyLower`). -/
def pyUpper (s : String) : String := String.mk (s.data.map Char.toUpper)

/-- One entry of `Output["Calculations"]` as read by `_define_output`:
a dict with keys `Type`, `CreateProperty`, `CreateZoneMap`. -/
structure Calculation where
  «Type» : String
  CreateProperty : Bool
  CreateZoneMap : Bool
deriving DecidableEq, Repr

/-- The `Output` section dict (`out_input`) as read by `_define_prefixes`
and `_define_output`: keys `Prefix`, `UseGas`, `UseOil`, `MapOutput`,
`Calculations`. -/
structure OutInput where
  Prefix : String
  UseGas : Bool
  UseOil : Bool
  MapOutput : String
  Calculations : List Calculation
deriving DecidableEq, Repr

/-- `_define_prefixes(out_input)`: builds the list of fluid-phase prefixes.
Mirrors the Python statement sequence: read `Prefix`, append `"_"` when it
is non-empty, then append `prefix + "Gas_"` when `UseGas` and
`prefix + "Oil_"` when `UseOil`. -/
def _define_prefixes (out_input : OutInput) : List String :=
  let prfx0 := out_input.Prefix
  let prfx := if prfx0 ≠ "" then prfx0 ++ "_" else prfx0
  let prefixes : List String := []
  let prefixes := if out_input.UseGas then prefixes ++ [prfx ++ "Gas_"] else prefixes
  let prefixes := if out_input.UseOil then prefixes ++ [prfx ++ "Oil_"] else prefixes
  prefixes

/-- The body of `_define_output`'s inner loop for one calculation and one
prfx: conditionally append `prfx + Type.lower()` to `properties`
(when `CreateProperty`) and `prfx + Type.upper()` to `maps`
(when `CreateZoneMap`).  The state is the pair `(maps, properties)`. -/
def outputStep (c : Calculation) (st : List String × List String)
    (prfx : String) : List String × List String :=
  let properties :=
    if c.CreateProperty then st.2 ++ [prfx ++ pyLower c.«Type»] else st.2
  let maps :=
    if c.CreateZoneMap then st.1 ++ [prfx ++ pyUpper c.«Type»] else st.1
  (maps, properties)

/-- The collated dict returned by `_define_output`: keys `maps`,
`properties`, `map_location`, `map_subfolders`. -/
structure Collated where
  maps : List String
  properties : List String
  map_location : String
  map_subfolders : List String
deriving DecidableEq, Repr

/-- One selector entry `{"filters": ..., "parameter": ...}`.  The `Zone`
entry stored by `_define_selectors` has no `parameter` subkey, hence the
`Option`. -/
structure SelEntry where
  filters : List String
  parameter : Option String
deriving DecidableEq, Repr

/-- The `selectors` dict built by `_define_selectors`.  Its key set is fixed
(`Zone`, `Region`, `Facies` plus the top-level `parameter` string), so it is
embedded as a structure of `Option` fields (`none` = key absent). -/
structure Selectors where
  Zone : Option SelEntry
  Region : Option SelEntry
  Facies : Option SelEntry
  parameter : Option String
deriving DecidableEq, Repr

/-- `_define_output(out_input, selectors)`.  The nested loop
`for calculation in calculations: for prfx in prefixes: ...` is the fold of
`outputStep`; `selectors["Zone"]["filters"]` raises `KeyError` when the
`Zone` key is absent (it never is on the output of `_define_selectors`). -/
def _define_output (out_input : OutInput) (selectors : Selectors) :
    Except PyErr Collated :=
  let out_location := pyLower out_input.MapOutput
  let calculations := out_input.Calculations
  let prefixes := _define_prefixes out_input
  let st := calculations.foldl (fun st c => prefixes.foldl (outputStep c) st) ([], [])
  match selectors.Zone with
  | none => .error .keyError
  | some zone =>
      .ok { maps := st.1, properties := st.2,
            map_location := out_location, map_subfolders := zone.filters }

/-- The `in_dict` argument of `_define_selectors` (the `Input` section):
each key may be absent (`none`). -/
structure InDict where
  SelectedZoneNames : Option (List String)
  SelectedRegionNames : Option (List String)
  RegionProperty : Option (List String)
  SelectedFaciesNames : Option (List String)
  FaciesProperty : Option (List String)
deriving DecidableEq, Repr

/-- The try-block body of `_define_selectors` for one key of
`["Region", "Facies"]`: read `Selected{key}Names` (a `KeyError` when absent
propagates — only `IndexError` is caught), then `{key}Property` (`KeyError`
likewise uncaught), then its last element `[-1]` (an `IndexError` on the
empty list is caught: the key is omitted and a warning logged, encoded as
`.ok none`). -/
def trySelector (names : Option (List String)) (prop : Option (List String)) :
    Except PyErr (Option SelEntry) :=
  match names with
  | none => .error .keyError
  | some filters =>
      match prop with
      | none => .error .keyError
      | some ps =>
          match ps.getLast? with
          | none => .ok none
          | some p => .ok (some { filters := filters, parameter := some p })

/-- `_define_selectors(in_dict)`: resolve `Region` and `Facies` (in that
order) through `trySelector`, then unconditionally store
`Zone = {"filters": in_dict["SelectedZoneNames"]}` (no `parameter` subkey)
and the top-level `"parameter" = "subgrids"`.  Returns the selectors dict
together with the list of warning messages logged. -/
def _define_selectors (in_dict : InDict) :
    Except PyErr (Selectors × List String) := do
  let region ← trySelector in_dict.SelectedRegionNames in_dict.RegionProperty
  let warnings := if region.isNone then ["No selectors for Region"] else []
  let facies ← trySelector in_dict.SelectedFaciesNames in_dict.FaciesProperty
  let warnings := warnings ++ (if facies.isNone then ["No selectors for Facies"] else [])
  match in_dict.SelectedZoneNames with
  | none => .error .keyError
  | some zns =>
      .ok ({ Zone := some { filters := zns, parameter := none },
             Region := region, Facies := facies,
             parameter := some "subgrids" }, warnings)

/-- One variable entry of a group in the `Variables` section, with the keys
`_define_variables` reads: `Name`, `InputSource`, `TableValues`,
`InputType`, `DataInput`.  The contents of `TableValues` are never
inspected by the code, so their type is a parameter `α`. -/
structure VariableEntry (α : Type) where
  Name : String
  InputSource : String
  TableValues : α
  InputType : String
  DataInput : List (List String)
deriving DecidableEq, Repr

/-- The value stored under the `values` key of a variable definition: the
variable's own `TableValues` unchanged, the literal string `"hidden"`, or
the reference dict `{"property": name}`. -/
inductive VarValues (α : Type) where
  | raw (tv : α)
  | hidden
  | propertyRef (name : String)
deriving DecidableEq, Repr

/-- One value of the `var_definitions` dict built by `_define_variables`:
`{"applies": InputType, "values": ...}`. -/
structure VarDef (α : Type) where
  applies : String
  values : VarValues α
deriving DecidableEq, Repr

/-- Python `if x not in lst: lst.append(x)` — append `x` unless it is
already present. -/
def pyAppendUnique (lst : List String) (x : String) : List String :=
  if lst.contains x then lst else lst ++ [x]

/-- Insertion-order deduplication: the effect of repeatedly running
`pyAppendUnique` over a sequence starting from the empty list, keeping the
first occurrence of each element. -/
def pyDedup (l : List String) : List String := l.foldl pyAppendUnique []

/-- Python dict assignment `d[k] = v`: overwrite in place when the key is
present (keeping its position), else append the new pair. -/
def dictInsert {β : Type} (d : List (String × β)) (k : String) (v : β) :
    List (String × β) :=
  if (d.map Prod.fst).contains k then
    d.map (fun p => if p.1 = k then (k, v) else p)
  else d ++ [(k, v)]

/-- The body of `_define_variables`' inner loop for one variable.  The state
is `(var_definitions, variable_parameters)`.  When `DataInput` is non-empty
(Python truthiness), `propname = DataInput[0][-1]` — the last element of
the FIRST element; an empty first element raises an uncaught `IndexError`.
The name is appended to `variable_parameters` only when not yet present.
Otherwise `values` is `"hidden"` when `InputSource == "REGION_MODEL"`, else
the raw `TableValues`. -/
def variableStep {α : Type} (st : List (String × VarDef α) × List String)
    (v : VariableEntry α) :
    Except PyErr (List (String × VarDef α) × List String) :=
  match v.DataInput with
  | di0 :: _ =>
      match di0.getLast? with
      | none => .error .indexError
      | some propname =>
          .ok (dictInsert st.1 v.Name
                 { applies := v.InputType, values := .propertyRef propname },
               pyAppendUnique st.2 propname)
  | [] =>
      let table_values : VarValues α :=
        if v.InputSource = "REGION_MODEL" then .hidden else .raw v.TableValues
      .ok (dictInsert st.1 v.Name
             { applies := v.InputType, values := table_values }, st.2)

/-- `variableStep` lifted to the exception monad: a raise in an earlier
iteration aborts the remaining ones. -/
def variableStepE {α : Type}
    (acc : Except PyErr (List (String × VarDef α) × List String))
    (v : VariableEntry α) :
    Except PyErr (List (String × VarDef α) × List String) :=
  acc.bind (fun st => variableStep st v)

/-- `_define_variables(variables_input)`: iterate over the groups of the
`Variables` dict (`variables_input.values()`, in insertion order) and over
each group's variables, threading the `(var_definitions,
variable_parameters)` state through `variableStep`.  Returns the pair the
Python function returns. -/
def _define_variables {α : Type}
    (variables_input : List (String × List (VariableEntry α))) :
    Except PyErr (List (String × VarDef α) × List String) :=
  variables_input.foldl
    (fun acc grp => grp.2.foldl variableStepE acc)
    (.ok ([], []))

/-- The fixed `RENAME_VOLUMES` rename dict, as (old name, new name) pairs. -/
def RENAME_VOLUMES : List (String × String) :=
  [("Proj. real.", "REAL"),
   ("Zone", "ZONE"),
   ("Segment", "REGION"),
   ("Boundary", "LICENSE"),
   ("Facies", "FACIES"),
   ("BulkOil", "BULK_OIL"),
   ("NetOil", "NET_OIL"),
   ("PoreOil", "PORV_OIL"),
   ("HCPVOil", "HCPV_OIL"),
   ("STOIIP", "STOIIP_OIL"),
   ("AssociatedGas", "ASSOCIATEDGAS_OIL"),
   ("BulkGas", "BULK_GAS"),
   ("PoreGas", "PORV_GAS"),
   ("HCPVGas", "HCPV_GAS"),
   ("GIIP", "GIIP_GAS"),
   ("AssociatedLiquid", "ASSOCIATEDOIL_GAS"),
   ("Bulk", "BULK_TOTAL"),
   ("Net", "NET_TOTAL"),
   ("Pore", "PORV_TOTAL")]

/-- A volumetrics table (the `pandas.DataFrame` built in `get_volumetrics`):
an ordered sequence of named columns.  Cell values are strings — their
contents are never inspected by the code, only column labels are. -/
structure DataFrame where
  cols : List (String × List String)
deriving DecidableEq, Repr

/-- `DataFrame.rename(columns=RENAME_VOLUMES)`: each column label in the
rename dict is replaced, all others are kept. -/
def renameColumns (df : DataFrame) : DataFrame :=
  DataFrame.mk (df.cols.map (fun c =>
    match RENAME_VOLUMES.lookup c.1 with
    | some new => (new, c.2)
    | none => c))

/-- `DataFrame.drop(label, axis=1)`: removes every column with the given
label; raises `KeyError` (`none`) when no column matches. -/
def dropColumn (df : DataFrame) (label : String) : Option DataFrame :=
  if (df.cols.map Prod.fst).contains label then
    some (DataFrame.mk (df.cols.filter (fun c => c.1 ≠ label)))
  else none

/-- One entry of the `Report` section, with the key `get_volumetrics`
reads. -/
structure ReportEntry where
  ReportTableName : String
deriving DecidableEq, Repr

/-- `get_volumetrics(report_params, project)`: inside a
`try ... except KeyError` block, read `report_params[0]` (an `IndexError`
on the empty list is NOT caught and propagates), look the named table up in
`project.volumetric_tables` (a `KeyError` when absent is caught: the
result is `None`), rename columns by `RENAME_VOLUMES`, and drop the `REAL`
column (the `KeyError` when no such column exists is caught by the same
handler: the result is again `None`).  The project handle is embedded by
its `volumetric_tables` mapping, the only part the function reads. -/
def get_volumetrics (report_params : List ReportEntry)
    (volumetric_tables : List (String × DataFrame)) :
    Except PyErr (Option DataFrame) :=
  match report_params.head? with
  | none => .error .indexError
  | some entry =>
      match volumetric_tables.lookup entry.ReportTableName with
      | none => .ok none
      | some df =>
          match dropColumn (renameColumns df) "REAL" with
          | none => .ok none
          | some dropped => .ok (some dropped)

/-- The export plan assembled by `RmsInplaceVolumes.__post_init__` from the
already-fetched job sections: `report_output` after
`report_output["properties"].extend(additional_props)` and
`report_output["table"] = self.report`. -/
structure ExportPlan (α : Type) where
  maps : List String
  properties : List String
  map_location : String
  map_subfolders : List String
  table : Option DataFrame
  input_variables : List (String × VarDef α)
deriving DecidableEq, Repr

/-- The pure tail of `RmsInplaceVolumes.__post_init__` (everything after
the host I/O that fetches `self.params` and `self.project`): compute
`self.report` with `get_volumetrics`, `self.selectors` with
`_define_selectors`, `self.report_output` with `_define_output`, the
variables with `_define_variables`, then extend the `properties` list with
the additional properties and attach the table. -/
def post_init_plan {α : Type} (input : InDict) (output : OutInput)
    (variables_input : List (String × List (VariableEntry α)))
    (report_params : List ReportEntry)
    (volumetric_tables : List (String × DataFrame)) :
    Except PyErr (ExportPlan α) := do
  let report ← get_volumetrics report_params volumetric_tables
  let sel ← _define_selectors input
  let report_output ← _define_output output sel.1
  let vars ← _define_variables variables_input
  .ok { maps := report_output.maps,
        properties := report_output.properties ++ vars.2,
        map_location := report_output.map_location,
        map_subfolders := report_output.map_subfolders,
        table := report,
        input_variables := vars.1 }

/-- Written from the spec's wording (§4.1): the base a fluid tag is glued
to is `Prefix + "_"` when `Prefix` is non-empty, else empty. -/
def specTag (o : OutInput) (tag : String) : String :=
  if o.Prefix = "" then tag else o.Prefix ++ "_" ++ tag

/-- Written from the spec's wording (§4.2): the maps list is
calculation-major, prefix-minor, one entry `prefix + uppercase(Type)` per
combination whose calculation has `CreateZoneMap`. -/
def specMaps (cs : List Calculation) (ps : List String) : List String :=
  cs.flatMap (fun c =>
    if c.CreateZoneMap then ps.map (fun p => p ++ pyUpper c.«Type») else [])

/-- Written from the spec's wording (§4.2): the properties list is
calculation-major, prefix-minor, one entry `prefix + lowercase(Type)` per
combination whose calculation has `CreateProperty`. -/
def specProperties (cs : List Calculation) (ps : List String) : List String :=
  cs.flatMap (fun c =>
    if c.CreateProperty then ps.map (fun p => p ++ pyLower c.«Type») else [])

/-- The per-variable data-input reference `DataInput[0][-1]` as an
optional value: `none` when `DataInput` is empty (no data link) or when
its first element is empty (the `IndexError` case). -/
def extractOne {α : Type} (v : VariableEntry α) : Option String :=
  v.DataInput.head?.bind List.getLast?

/-- All data-input property references of a variables section, in
iteration order (groups in insertion order, variables within each group in
order), duplicates included. -/
def extractedProps {α : Type}
    (vars : List (String × List (VariableEntry α))) : List String :=
  (vars.flatMap Prod.snd).filterMap extractOne

end ExportHelpers

namespace ExportHelpers

/-- The inner loop of `_define_output` over the prefixes appends, for one
calculation, the conditional map and property entries of every prefix in
order. -/
theorem foldl_outputStep (c : Calculation) (ps : List String)
    (st : List String × List String) :
    ps.foldl (outputStep c) st =
      (st.1 ++ (if c.CreateZoneMap then ps.map (fun p => p ++ pyUpper c.«Type») else []),
       st.2 ++ (if c.CreateProperty then ps.map (fun p => p ++ pyLower c.«Type») else [])) := by
  induction ps generalizing st with
  | nil => simp
  | cons p ps ih =>
      rw [List.foldl_cons, ih]
      unfold outputStep
      cases hm : c.CreateZoneMap <;> cases hp : c.CreateProperty <;> simp [hm, hp]

/-- The double loop of `_define_output` produces exactly the
calculation-major, prefix-minor `specMaps` / `specProperties` lists. -/
theorem foldl_output (cs : List Calculation) (ps : List String)
    (st : List String × List String) :
    cs.foldl (fun st c => ps.foldl (outputStep c) st) st =
      (st.1 ++ specMaps cs ps, st.2 ++ specProperties cs ps) := by
  induction cs generalizing st with
  | nil => simp [specMaps, specProperties]
  | cons c cs ih =>
      rw [List.foldl_cons, foldl_outputStep, ih]
      simp [specMaps, specProperties]

/-- `_define_prefixes` in spec form: a conditional `Gas_` entry followed by
a conditional `Oil_` entry, each on the `specTag` base. -/
theorem _define_prefixes_eq (o : OutInput) :
    _define_prefixes o =
      (if o.UseGas then [specTag o "Gas_"] else []) ++
      (if o.UseOil then [specTag o "Oil_"] else []) := by
  unfold _define_prefixes specTag
  by_cases hp : o.Prefix = "" <;>
    cases hg : o.UseGas <;> cases ho : o.UseOil <;>
      simp [hp, hg, ho, String.append_assoc]

/-- Membership in `specMaps` comes from a prefix and a calculation. -/
theorem mem_specMaps {x : String} {cs : List Calculation} {ps : List String}
    (hx : x ∈ specMaps cs ps) :
    ∃ p ∈ ps, ∃ c ∈ cs, x = p ++ pyUpper c.«Type» := by
  rcases List.mem_flatMap.mp hx with ⟨c, hc, hxc⟩
  cases hz : c.CreateZoneMap with
  | true =>
      rw [hz, if_pos rfl] at hxc
      rcases List.mem_map.mp hxc with ⟨p, hp, rfl⟩
      exact ⟨p, hp, c, hc, rfl⟩
  | false =>
      rw [hz] at hxc
      simp at hxc

/-- Membership in `specProperties` comes from a prefix and a calculation. -/
theorem mem_specProperties {x : String} {cs : List Calculation} {ps : List String}
    (hx : x ∈ specProperties cs ps) :
    ∃ p ∈ ps, ∃ c ∈ cs, x = p ++ pyLower c.«Type» := by
  rcases List.mem_flatMap.mp hx with ⟨c, hc, hxc⟩
  cases hz : c.CreateProperty with
  | true =>
      rw [hz, if_pos rfl] at hxc
      rcases List.mem_map.mp hxc with ⟨p, hp, rfl⟩
      exact ⟨p, hp, c, hc, rfl⟩
  | false =>
      rw [hz] at hxc
      simp at hxc

/-- With no prefixes there are no map entries. -/
theorem specMaps_nil (cs : List Calculation) : specMaps cs [] = [] := by
  induction cs with
  | nil => rfl
  | cons c cs ih =>
      unfold specMaps at ih ⊢
      rw [List.flatMap_cons, ih]
      cases h : c.CreateZoneMap <;> simp [h]

/-- With no prefixes there are no property entries. -/
theorem specProperties_nil (cs : List Calculation) : specProperties cs [] = [] := by
  induction cs with
  | nil => rfl
  | cons c cs ih =>
      unfold specProperties at ih ⊢
      rw [List.flatMap_cons, ih]
      cases h : c.CreateProperty <;> simp [h]

/-- C3 (counterexample): at the claim's own concrete input — one
calculation `{Type: "Stoiip", CreateProperty: true, CreateZoneMap: true}`
with the single prefix `"Oil_"` — `_define_output` produces
`maps == ["Oil_STOIIP"]`, not `["OIL_STOIIP"]` as claimed: line 79
uppercases only `Type`, never the prefix it is glued to. -/
theorem claim_C3_counterexample :
    _define_output
        { Prefix := "", UseGas := false, UseOil := true, MapOutput := "Clipboard",
          Calculations := [{ «Type» := "Stoiip", CreateProperty := true,
                             CreateZoneMap := true }] }
        { Zone := some { filters := ["Z1"], parameter := none },
          Region := none, Facies := none, parameter := some "subgrids" } =
      .ok { maps := ["Oil_STOIIP"], properties := ["Oil_stoiip"],
            map_location := "clipboard", map_subfolders := ["Z1"] } ∧
    ("Oil_STOIIP" : String) ≠ "OIL_STOIIP" := by
  constructor
  · decide
  · decide

/-- C3 (amended): `_define_output` appends `prefix + lowercase(Type)` to
`properties` exactly when `CreateProperty` and `prefix + uppercase(Type)`
to `maps` exactly when `CreateZoneMap`, ordered calculation-major,
prefix-minor; for the single calculation `{Type: "Stoiip", CreateProperty:
true, CreateZoneMap: true}` with prefixes `["Oil_"]` this yields
`properties == ["Oil_stoiip"]` and `maps == ["Oil_STOIIP"]` (the prefix
itself is not case-mapped). -/
theorem claim_C3 (o : OutInput) (sel : Selectors) (z : SelEntry)
    (hz : sel.Zone = some z) :
    _define_output o sel =
      .ok { maps := specMaps o.Calculations (_define_prefixes o),
            properties := specProperties o.Calculations (_define_prefixes o),
            map_location := pyLower o.MapOutput,
            map_subfolders := z.filters } := by
  simp only [_define_output, foldl_output, hz, List.nil_append]

/-- C3 witness: the amended claim applied at its concrete example. -/
theorem claim_C3_witness :
    _define_output
        { Prefix := "", UseGas := false, UseOil := true, MapOutput := "Clipboard",
          Calculations := [{ «Type» := "Stoiip", CreateProperty := true,
                             CreateZoneMap := true }] }
        { Zone := some { filters := ["Z2"], parameter := none },
          Region := none, Facies := none, parameter := some "subgrids" } =
      .ok { maps := ["Oil_STOIIP"], properties := ["Oil_stoiip"],
            map_location := "clipboard", map_subfolders := ["Z2"] } := by
  have h := claim_C3
    { Prefix := "", UseGas := false, UseOil := true, MapOutput := "Clipboard",
      Calculations := [{ «Type» := "Stoiip", CreateProperty := true,
                         CreateZoneMap := true }] }
    { Zone := some { filters := ["Z2"], parameter := none },
      Region := none, Facies := none, parameter := some "subgrids" }
    { filters := ["Z2"], parameter := none } rfl
  rw [h]
  decide

/-- C4: `_define_prefixes` returns (as a conjunction, in the claim's order)
the general form — with non-empty `Prefix` each entry is
`Prefix + "_" + tag`, otherwise just the tag; a `Gas_` entry when `UseGas`
followed by an `Oil_` entry when `UseOil`; empty when both flags are false
— and the three concrete instances of the claim, for any values of the
fields `_define_prefixes` does not read. -/
theorem claim_C4 :
    (∀ o : OutInput, _define_prefixes o =
        (if o.UseGas then [specTag o "Gas_"] else []) ++
        (if o.UseOil then [specTag o "Oil_"] else [])) ∧
    (∀ m cs, _define_prefixes
        { Prefix := "", UseGas := true, UseOil := true,
          MapOutput := m, Calculations := cs } = ["Gas_", "Oil_"]) ∧
    (∀ m cs, _define_prefixes
        { Prefix := "X", UseGas := true, UseOil := true,
          MapOutput := m, Calculations := cs } = ["X_Gas_", "X_Oil_"]) ∧
    (∀ p m cs, _define_prefixes
        { Prefix := p, UseGas := false, UseOil := false,
          MapOutput := m, Calculations := cs } = []) := by
  refine ⟨_define_prefixes_eq, fun m cs => rfl, fun m cs => rfl, fun p m cs => ?_⟩
  rw [_define_prefixes_eq]
  rfl

/-- C5: whenever `_define_output` succeeds, if both `UseGas` and `UseOil`
are false (the prefix list is empty) then `maps` and `properties` are empty
regardless of the per-calculation flags, and in general every entry of
`maps` and `properties` is some prefix of `_define_prefixes` followed by a
case-mapped `Type` — never un-prefixed. -/
theorem claim_C5 (o : OutInput) (sel : Selectors) (out : Collated)
    (h : _define_output o sel = .ok out) :
    (o.UseGas = false ∧ o.UseOil = false → out.maps = [] ∧ out.properties = []) ∧
    (∀ x ∈ out.maps, ∃ p ∈ _define_prefixes o, ∃ c ∈ o.Calculations,
        x = p ++ pyUpper c.«Type») ∧
    (∀ x ∈ out.properties, ∃ p ∈ _define_prefixes o, ∃ c ∈ o.Calculations,
        x = p ++ pyLower c.«Type») := by
  cases hz : sel.Zone with
  | none =>
      simp only [_define_output, hz] at h
      cases h
  | some z =>
      simp only [_define_output, foldl_output, hz, List.nil_append,
        Except.ok.injEq] at h
      have hmaps : out.maps = specMaps o.Calculations (_define_prefixes o) := by
        rw [← h]
      have hprops : out.properties = specProperties o.Calculations (_define_prefixes o) := by
        rw [← h]
      refine ⟨?_, ?_, ?_⟩
      · rintro ⟨hg, ho⟩
        have hps : _define_prefixes o = [] := by
          rw [_define_prefixes_eq, hg, ho]
          rfl
        rw [hmaps, hprops, hps, specMaps_nil, specProperties_nil]
        exact ⟨rfl, rfl⟩
      · intro x hx
        rw [hmaps] at hx
        exact mem_specMaps hx
      · intro x hx
        rw [hprops] at hx
        exact mem_specProperties hx

/-- C5 witness: with both fluid flags false the plan has no maps and no
properties, even though the calculation asks for both. -/
theorem claim_C5_witness :
    ({ maps := [], properties := [], map_location := "clipboard",
       map_subfolders := ["Z1"] } : Collated).maps = [] ∧
    ({ maps := [], properties := [], map_location := "clipboard",
       map_subfolders := ["Z1"] } : Collated).properties = [] := by
  have h := claim_C5
    { Prefix := "P", UseGas := false, UseOil := false, MapOutput := "Clipboard",
      Calculations := [{ «Type» := "Stoiip", CreateProperty := true,
                         CreateZoneMap := true }] }
    { Zone := some { filters := ["Z1"], parameter := none },
      Region := none, Facies := none, parameter := some "subgrids" }
    { maps := [], properties := [], map_location := "clipboard",
      map_subfolders := ["Z1"] }
    (by decide)
  exact h.1 ⟨rfl, rfl⟩

/-- Closed form of `_define_selectors` when all five keys are present: no
error can be raised; `Region`/`Facies` are present exactly when the
respective property list has a last element, and a warning is logged for
each omitted key. -/
theorem _define_selectors_all_present (zns rns rps fns fps : List String) :
    _define_selectors
        { SelectedZoneNames := some zns, SelectedRegionNames := some rns,
          RegionProperty := some rps, SelectedFaciesNames := some fns,
          FaciesProperty := some fps } =
      .ok ({ Zone := some { filters := zns, parameter := none },
             Region := rps.getLast?.map
               (fun p => { filters := rns, parameter := some p }),
             Facies := fps.getLast?.map
               (fun p => { filters := fns, parameter := some p }),
             parameter := some "subgrids" },
           (if rps.getLast? = none then ["No selectors for Region"] else []) ++
           (if fps.getLast? = none then ["No selectors for Facies"] else [])) := by
  cases hr : rps.getLast? <;> cases hf : fps.getLast? <;>
    simp [_define_selectors, trySelector, hr, hf, Except.bind, Bind.bind]

/-- C2 (counterexample): with `RegionProperty` absent (while the other keys
are present), `_define_selectors` raises an uncaught `KeyError` instead of
omitting the `Region` key: the `try` block catches only `IndexError`. -/
theorem claim_C2_counterexample :
    _define_selectors
        { SelectedZoneNames := some ["Z1"],
          SelectedRegionNames := some ["R1"], RegionProperty := none,
          SelectedFaciesNames := some ["F1"], FaciesProperty := some ["p"] } =
      .error .keyError := by
  decide

/-- C2 (amended): when the keys `Selected{Region,Facies}Names` and
`{Region,Facies}Property` are all present, `_define_selectors` never
raises; an index failure on the last element of an empty `{Key}Property`
list makes it omit that selector key and record a non-fatal warning, and
the result still maps `Zone` to the input `SelectedZoneNames` sequence.
An absent key (e.g. absent `RegionProperty`) instead raises an uncaught
`KeyError`. -/
theorem claim_C2 (zns rns rps fns fps : List String) :
    ∃ sels ws,
      _define_selectors
          { SelectedZoneNames := some zns, SelectedRegionNames := some rns,
            RegionProperty := some rps, SelectedFaciesNames := some fns,
            FaciesProperty := some fps } = .ok (sels, ws) ∧
      sels.Zone = some { filters := zns, parameter := none } ∧
      (rps = [] → sels.Region = none ∧ "No selectors for Region" ∈ ws) ∧
      (fps = [] → sels.Facies = none ∧ "No selectors for Facies" ∈ ws) := by
  refine ⟨_, _, _define_selectors_all_present zns rns rps fns fps, rfl, ?_, ?_⟩
  · rintro rfl
    simp
  · rintro rfl
    simp

/-- C2 witness: empty `RegionProperty` (all keys present): no error, no
`Region` selector, a warning, and `Zone` still carries the zone names. -/
theorem claim_C2_witness :
    ∃ sels ws,
      _define_selectors
          { SelectedZoneNames := some ["Z1", "Z2"],
            SelectedRegionNames := some ["R1"], RegionProperty := some [],
            SelectedFaciesNames := some ["F1"],
            FaciesProperty := some ["p", "q"] } = .ok (sels, ws) ∧
      sels.Zone = some { filters := ["Z1", "Z2"], parameter := none } ∧
      sels.Region = none ∧ "No selectors for Region" ∈ ws := by
  rcases claim_C2 ["Z1", "Z2"] ["R1"] [] ["F1"] ["p", "q"] with
    ⟨sels, ws, heq, hzone, hregion, _⟩
  exact ⟨sels, ws, heq, hzone, (hregion rfl).1, (hregion rfl).2⟩

/-- C7: whatever the input (as long as a result is produced at all, and the
input contains `SelectedZoneNames`), the resulting selectors map `Zone` to
`{filters: SelectedZoneNames}` with no `parameter` subkey inside it, and
the top-level sibling key `parameter` to the literal `"subgrids"`. -/
theorem claim_C7 (ind : InDict) (zns : List String)
    (hz : ind.SelectedZoneNames = some zns) (sels : Selectors)
    (ws : List String) (h : _define_selectors ind = .ok (sels, ws)) :
    sels.Zone = some { filters := zns, parameter := none } ∧
    sels.parameter = some "subgrids" := by
  unfold _define_selectors at h
  cases h1 : trySelector ind.SelectedRegionNames ind.RegionProperty with
  | error e => rw [h1] at h; cases h
  | ok region =>
      rw [h1] at h
      cases h2 : trySelector ind.SelectedFaciesNames ind.FaciesProperty with
      | error e =>
          rw [h2] at h
          simp [Except.bind, Bind.bind] at h
      | ok facies =>
          rw [h2, hz] at h
          simp only [Except.bind, Bind.bind, Except.ok.injEq, Prod.mk.injEq] at h
          rw [← h.1]
          exact ⟨rfl, rfl⟩

/-- C7 witness: the claim applied at a concrete input that also has a
`Region` selector. -/
theorem claim_C7_witness :
    (({ Zone := some { filters := ["Z9"], parameter := none },
        Region := some { filters := ["R1"], parameter := some "rp" },
        Facies := none, parameter := some "subgrids" } : Selectors).Zone =
      some { filters := ["Z9"], parameter := none }) ∧
    (({ Zone := some { filters := ["Z9"], parameter := none },
        Region := some { filters := ["R1"], parameter := some "rp" },
        Facies := none, parameter := some "subgrids" } : Selectors).parameter =
      some "subgrids") := by
  exact claim_C7
    { SelectedZoneNames := some ["Z9"],
      SelectedRegionNames := some ["R1"], RegionProperty := some ["rp"],
      SelectedFaciesNames := some ["F1"], FaciesProperty := some [] }
    ["Z9"] rfl
    { Zone := some { filters := ["Z9"], parameter := none },
      Region := some { filters := ["R1"], parameter := some "rp" },
      Facies := none, parameter := some "subgrids" }
    ["No selectors for Facies"] (by decide)

/-- Lifting through `variableStepE` from a success state is just
`variableStep`. -/
theorem variableStepE_ok {α : Type}
    (st : List (String × VarDef α) × List String) (v : VariableEntry α) :
    variableStepE (.ok st) v = variableStep st v := rfl

/-- Once the variables fold has raised, it stays raised. -/
theorem foldl_variableStepE_error {α : Type} (e : PyErr)
    (l : List (VariableEntry α)) :
    l.foldl variableStepE (.error e) = .error e := by
  induction l with
  | nil => rfl
  | cons v l ih => rw [List.foldl_cons]; exact ih

/-- The grouped double loop of `_define_variables` equals a single fold
over the concatenation of all groups. -/
theorem _define_variables_eq_flat {α : Type}
    (vars : List (String × List (VariableEntry α))) :
    _define_variables vars =
      (vars.flatMap Prod.snd).foldl variableStepE (.ok ([], [])) := by
  unfold _define_variables
  rw [List.flatMap_def, List.foldl_flatten, List.foldl_map]

/-- In a successful run of the variables fold, the collected parameter
list is the `pyAppendUnique` fold of the extracted data-input references
over the starting list. -/
theorem foldl_variableStep_params {α : Type} (l : List (VariableEntry α))
    (st : List (String × VarDef α) × List String)
    (defs : List (String × VarDef α)) (params : List String)
    (h : l.foldl variableStepE (.ok st) = .ok (defs, params)) :
    params = (l.filterMap extractOne).foldl pyAppendUnique st.2 := by
  induction l generalizing st defs with
  | nil =>
      simp only [List.foldl_nil, Except.ok.injEq] at h
      subst h
      rfl
  | cons v l ih =>
      rw [List.foldl_cons] at h
      cases hdi : v.DataInput with
      | nil =>
          have hv : variableStep st v =
              .ok (dictInsert st.1 v.Name
                     { applies := v.InputType,
                       values := if v.InputSource = "REGION_MODEL" then .hidden
                                 else .raw v.TableValues }, st.2) := by
            simp only [variableStep, hdi]
          have hskip : extractOne v = none := by
            unfold extractOne
            rw [hdi]
            rfl
          rw [variableStepE_ok, hv] at h
          simp only [List.filterMap_cons, hskip]
          have hres := ih _ defs h
          exact hres
      | cons row rest =>
          cases hlast : row.getLast? with
          | none =>
              have hv : variableStep st v = .error .indexError := by
                simp only [variableStep, hdi, hlast]
              rw [variableStepE_ok, hv, foldl_variableStepE_error] at h
              cases h
          | some p =>
              have hv : variableStep st v =
                  .ok (dictInsert st.1 v.Name
                         { applies := v.InputType, values := .propertyRef p },
                       pyAppendUnique st.2 p) := by
                simp only [variableStep, hdi, hlast]
              have hone : extractOne v = some p := by
                unfold extractOne
                rw [hdi]
                exact hlast
              rw [variableStepE_ok, hv] at h
              simp only [List.filterMap_cons, hone]
              have hres := ih _ defs h
              exact hres

/-- In a successful `_define_variables` run, the returned
additional-properties list is the insertion-order deduplication of all
extracted data-input references. -/
theorem _define_variables_params {α : Type}
    (vars : List (String × List (VariableEntry α)))
    (defs : List (String × VarDef α)) (params : List String)
    (h : _define_variables vars = .ok (defs, params)) :
    params = pyDedup (extractedProps vars) := by
  rw [_define_variables_eq_flat] at h
  exact foldl_variableStep_params _ _ _ _ h

/-- Membership after a `pyAppendUnique` fold: the element was already
present or occurs in the processed list. -/
theorem mem_foldl_pyAppendUnique (l : List String) (acc : List String)
    (x : String) :
    x ∈ l.foldl pyAppendUnique acc ↔ x ∈ acc ∨ x ∈ l := by
  induction l generalizing acc with
  | nil => simp
  | cons p l ih =>
      rw [List.foldl_cons, ih]
      unfold pyAppendUnique
      by_cases hp : acc.contains p
      · rw [if_pos hp]
        have hmem : p ∈ acc := by simpa using hp
        constructor
        · rintro (h | h)
          · exact Or.inl h
          · exact Or.inr (List.mem_cons_of_mem _ h)
        · rintro (h | h)
          · exact Or.inl h
          · rcases List.mem_cons.mp h with rfl | h2
            · exact Or.inl hmem
            · exact Or.inr h2
      · rw [if_neg hp]
        simp [List.mem_append, List.mem_cons, or_assoc]

/-- A `pyAppendUnique` fold preserves freedom from duplicates. -/
theorem nodup_foldl_pyAppendUnique (l : List String) (acc : List String)
    (h : acc.Nodup) : (l.foldl pyAppendUnique acc).Nodup := by
  induction l generalizing acc with
  | nil => exact h
  | cons p l ih =>
      rw [List.foldl_cons]
      apply ih
      unfold pyAppendUnique
      by_cases hp : acc.contains p
      · rw [if_pos hp]
        exact h
      · rw [if_neg hp]
        have hnm : p ∉ acc := by simpa using hp
        simp [List.nodup_append, h, hnm]

/-- A `pyAppendUnique` fold appends a subsequence of the processed list:
first occurrences are kept in their original relative order. -/
theorem sublist_foldl_pyAppendUnique (l : List String) :
    ∀ acc : List String,
      ∃ t, l.foldl pyAppendUnique acc = acc ++ t ∧ t.Sublist l := by
  induction l with
  | nil => exact fun acc => ⟨[], by simp, List.Sublist.refl _⟩
  | cons p l ih =>
      intro acc
      rw [List.foldl_cons]
      unfold pyAppendUnique
      by_cases hp : acc.contains p
      · rw [if_pos hp]
        rcases ih acc with ⟨t, ht, hs⟩
        exact ⟨t, ht, hs.cons p⟩
      · rw [if_neg hp]
        rcases ih (acc ++ [p]) with ⟨t, ht, hs⟩
        refine ⟨p :: t, ?_, hs.cons₂ p⟩
        have ht2 : List.foldl pyAppendUnique (acc ++ [p]) l = acc ++ [p] ++ t := ht
        rw [show (fun lst x => if lst.contains x = true then lst else lst ++ [x]) =
              pyAppendUnique from rfl, ht2, List.append_assoc]
        rfl

/-- `pyDedup` has no duplicates. -/
theorem pyDedup_nodup (l : List String) : (pyDedup l).Nodup :=
  nodup_foldl_pyAppendUnique l [] List.nodup_nil

/-- `pyDedup` keeps exactly the elements of its input. -/
theorem mem_pyDedup (l : List String) (x : String) :
    x ∈ pyDedup l ↔ x ∈ l := by
  unfold pyDedup
  rw [mem_foldl_pyAppendUnique]
  simp

/-- `pyDedup l` is a subsequence of `l`: insertion order is preserved. -/
theorem pyDedup_sublist (l : List String) : (pyDedup l).Sublist l := by
  rcases sublist_foldl_pyAppendUnique l [] with ⟨t, ht, hs⟩
  unfold pyDedup
  rw [ht]
  simpa using hs

/-- The `properties` list of a successful `_define_output` run in spec
form. -/
theorem _define_output_properties (o : OutInput) (sel : Selectors)
    (out : Collated) (h : _define_output o sel = .ok out) :
    out.properties = specProperties o.Calculations (_define_prefixes o) := by
  cases hz : sel.Zone with
  | none =>
      simp only [_define_output, hz] at h
      cases h
  | some z =>
      simp only [_define_output, foldl_output, hz, List.nil_append,
        Except.ok.injEq] at h
      rw [← h]

/-- C1 (counterexample): for the variable `v` with
`DataInput = [["a"], ["b"]]` the resolver stores
`values = {property: "a"}` — `DataInput[0][-1]`, the last element of the
FIRST element (line 108) — and records `"a"`, while the claimed
`DataInput[-1][-1]` is `"b"`. -/
theorem claim_C1_counterexample :
    _define_variables
        [("G", [{ Name := "v", InputSource := "SRC", TableValues := (),
                  InputType := "T", DataInput := [["a"], ["b"]] }])] =
      .ok ([("v", { applies := "T", values := .propertyRef "a" })], ["a"]) ∧
    ([["a"], ["b"]] : List (List String)).getLast?.bind List.getLast? =
      some "b" ∧
    ("a" : String) ≠ "b" := by
  refine ⟨by decide, by decide, by decide⟩

/-- C1 (amended): for every variable entry whose `DataInput` is non-empty,
the resolver sets that variable's `values` to `{property: p}` where `p` is
the last element of the FIRST element of `DataInput` (`DataInput[0][-1]`),
appending `p` to the additional-properties list only when it was not
already recorded; and in every successful `_define_variables` run, every
such `p` is recorded in the returned `AdditionalProperties` list. -/
theorem claim_C1 :
    (∀ (α : Type) (st : List (String × VarDef α) × List String)
        (v : VariableEntry α) (row : List String)
        (rest : List (List String)) (p : String),
      v.DataInput = row :: rest → row.getLast? = some p →
      variableStep st v =
        .ok (dictInsert st.1 v.Name
               { applies := v.InputType, values := .propertyRef p },
             pyAppendUnique st.2 p)) ∧
    (∀ (α : Type) (vars : List (String × List (VariableEntry α)))
        (defs : List (String × VarDef α)) (params : List String),
      _define_variables vars = .ok (defs, params) →
      ∀ g ∈ vars, ∀ v ∈ g.2, ∀ (row : List String)
        (rest : List (List String)) (p : String),
        v.DataInput = row :: rest → row.getLast? = some p → p ∈ params) := by
  constructor
  · intro α st v row rest p hdi hlast
    simp only [variableStep, hdi, hlast]
  · intro α vars defs params h g hg v hv row rest p hdi hlast
    have hparams := _define_variables_params vars defs params h
    have hex : p ∈ extractedProps vars := by
      unfold extractedProps
      refine List.mem_filterMap.mpr ⟨v, ?_, ?_⟩
      · exact List.mem_flatMap.mpr ⟨g, hg, hv⟩
      · unfold extractOne
        rw [hdi]
        exact hlast
    rw [hparams]
    exact (mem_pyDedup _ _).mpr hex

/-- C1 witness: the amended claim applied at the counterexample's input:
the step stores `{property: "a"}` and `"a"` is recorded in the returned
additional-properties list. -/
theorem claim_C1_witness :
    variableStep (α := Unit) ([], [])
        { Name := "v", InputSource := "SRC", TableValues := (),
          InputType := "T", DataInput := [["a"], ["b"]] } =
      .ok ([("v", { applies := "T", values := .propertyRef "a" })], ["a"]) ∧
    "a" ∈ (["a"] : List String) := by
  constructor
  · have h := claim_C1.1 Unit ([], [])
      { Name := "v", InputSource := "SRC", TableValues := (),
        InputType := "T", DataInput := [["a"], ["b"]] } ["a"] [["b"]] "a"
      rfl rfl
    rw [h]
    decide
  · exact claim_C1.2 Unit
      [("G", [{ Name := "v", InputSource := "SRC", TableValues := (),
                InputType := "T", DataInput := [["a"], ["b"]] }])]
      [("v", { applies := "T", values := .propertyRef "a" })] ["a"]
      (by decide)
      ("G", [{ Name := "v", InputSource := "SRC", TableValues := (),
               InputType := "T", DataInput := [["a"], ["b"]] }])
      (by decide)
      { Name := "v", InputSource := "SRC", TableValues := (),
        InputType := "T", DataInput := [["a"], ["b"]] }
      (by decide) ["a"] [["b"]] "a" rfl rfl

/-- C6: in every successful plan construction, the additional-properties
list appended to `properties` is the insertion-order deduplication of the
data-input references taken verbatim (never prefixed): it follows the
prefixed calculation-derived names, has no duplicates, is a subsequence of
the reference sequence (insertion order preserved), and a property
referenced by two different variables appears exactly once. -/
theorem claim_C6 {α : Type} (input : InDict) (output : OutInput)
    (vars : List (String × List (VariableEntry α)))
    (report_params : List ReportEntry)
    (volumetric_tables : List (String × DataFrame)) (plan : ExportPlan α)
    (h : post_init_plan input output vars report_params volumetric_tables =
      .ok plan) :
    plan.properties =
      specProperties output.Calculations (_define_prefixes output) ++
        pyDedup (extractedProps vars) ∧
    (pyDedup (extractedProps vars)).Nodup ∧
    (pyDedup (extractedProps vars)).Sublist (extractedProps vars) ∧
    ∀ p ∈ extractedProps vars, (pyDedup (extractedProps vars)).count p = 1 := by
  refine ⟨?_, pyDedup_nodup _, pyDedup_sublist _, ?_⟩
  · unfold post_init_plan at h
    cases h1 : get_volumetrics report_params volumetric_tables with
    | error e => rw [h1] at h; cases h
    | ok table =>
        rw [h1] at h
        cases h2 : _define_selectors input with
        | error e =>
            rw [h2] at h
            simp [Except.bind, Bind.bind] at h
        | ok selws =>
            rw [h2] at h
            simp only [Except.bind, Bind.bind] at h
            cases h3 : _define_output output selws.1 with
            | error e =>
                rw [h3] at h
                simp [Except.bind, Bind.bind] at h
            | ok out =>
                rw [h3] at h
                simp only [Except.bind, Bind.bind] at h
                cases h4 : _define_variables vars with
                | error e =>
                    rw [h4] at h
                    simp [Except.bind, Bind.bind] at h
                | ok dp =>
                    rw [h4] at h
                    simp only [Except.bind, Bind.bind, Except.ok.injEq] at h
                    have hprops := _define_output_properties output selws.1 out h3
                    have hparams := _define_variables_params vars dp.1 dp.2
                      (by rw [h4])
                    rw [← h]
                    simp only [hprops, hparams]
  · intro p hp
    exact List.count_eq_one_of_mem (pyDedup_nodup _) ((mem_pyDedup _ _).mpr hp)

/-- C6 witness: the claim applied at a concrete run in which two variables
both reference `PORO` through `DataInput`: the plan's properties are the
prefixed calculation name followed by `PORO` exactly once. -/
theorem claim_C6_witness :
    (({ maps := ["Oil_STOIIP"], properties := ["Oil_stoiip", "PORO"],
        map_location := "clipboard", map_subfolders := ["Z1", "Z2"],
        table := some { cols := [("ZONE", ["A"])] },
        input_variables :=
          [("NTG", { applies := "continuous", values := .propertyRef "PORO" }),
           ("SW", { applies := "continuous", values := .propertyRef "PORO" })] } :
        ExportPlan Unit).properties =
      specProperties
          [{ «Type» := "Stoiip", CreateProperty := true, CreateZoneMap := true }]
          (_define_prefixes
            { Prefix := "", UseGas := false, UseOil := true,
              MapOutput := "Clipboard",
              Calculations := [{ «Type» := "Stoiip", CreateProperty := true,
                                 CreateZoneMap := true }] }) ++
        pyDedup (extractedProps
          [("G1", [{ Name := "NTG", InputSource := "TABLE", TableValues := (),
                     InputType := "continuous",
                     DataInput := [["a", "b", "PORO"]] },
                   { Name := "SW", InputSource := "TABLE", TableValues := (),
                     InputType := "continuous",
                     DataInput := [["c", "PORO"]] }])])) ∧
    ["Oil_stoiip", "PORO"] = ["Oil_stoiip"] ++ ["PORO"] := by
  constructor
  · exact (claim_C6
      { SelectedZoneNames := some ["Z1", "Z2"],
        SelectedRegionNames := some ["R1"], RegionProperty := some ["rp"],
        SelectedFaciesNames := some ["F1"], FaciesProperty := some [] }
      { Prefix := "", UseGas := false, UseOil := true,
        MapOutput := "Clipboard",
        Calculations := [{ «Type» := "Stoiip", CreateProperty := true,
                           CreateZoneMap := true }] }
      [("G1", [{ Name := "NTG", InputSource := "TABLE", TableValues := (),
                 InputType := "continuous",
                 DataInput := [["a", "b", "PORO"]] },
               { Name := "SW", InputSource := "TABLE", TableValues := (),
                 InputType := "continuous",
                 DataInput := [["c", "PORO"]] }])]
      [{ ReportTableName := "geo" }]
      [("geo", { cols := [("Proj. real.", ["1"]), ("Zone", ["A"])] })]
      { maps := ["Oil_STOIIP"], properties := ["Oil_stoiip", "PORO"],
        map_location := "clipboard", map_subfolders := ["Z1", "Z2"],
        table := some { cols := [("ZONE", ["A"])] },
        input_variables :=
          [("NTG", { applies := "continuous", values := .propertyRef "PORO" }),
           ("SW", { applies := "continuous", values := .propertyRef "PORO" })] }
      (by decide)).1
  · decide

/-- C8: with a non-empty report section, `get_volumetrics` returns `None`
(without propagating any error) when the named table is not a key of
`project.volumetric_tables`; and when the table exists and the renamed
table still lets the `REAL` drop succeed, it returns the table with the
fixed rename applied and the `REAL` column removed. -/
theorem claim_C8 (entry : ReportEntry) (rest : List ReportEntry)
    (volumetric_tables : List (String × DataFrame)) :
    (volumetric_tables.lookup entry.ReportTableName = none →
      get_volumetrics (entry :: rest) volumetric_tables = .ok none) ∧
    (∀ df : DataFrame,
      volumetric_tables.lookup entry.ReportTableName = some df →
      ∀ dropped : DataFrame,
        dropColumn (renameColumns df) "REAL" = some dropped →
        get_volumetrics (entry :: rest) volumetric_tables = .ok (some dropped) ∧
        dropped.cols =
          (renameColumns df).cols.filter (fun c => c.1 ≠ "REAL")) := by
  constructor
  · intro hnone
    simp only [get_volumetrics, List.head?_cons, hnone]
  · intro df hdf dropped hdrop
    constructor
    · simp only [get_volumetrics, List.head?_cons, hdf, hdrop]
    · unfold dropColumn at hdrop
      by_cases hc : ((renameColumns df).cols.map Prod.fst).contains "REAL"
      · rw [if_pos hc] at hdrop
        have h := Option.some.inj hdrop
        rw [← h]
      · rw [if_neg hc] at hdrop
        cases hdrop

/-- C8 witness: the claim applied at a missing table (result `None`, no
error) and at an existing table (renamed, `REAL` dropped). -/
theorem claim_C8_witness :
    get_volumetrics [{ ReportTableName := "missing" }]
        [("geo", { cols := [("Proj. real.", ["1"]), ("Zone", ["A"])] })] =
      .ok none ∧
    get_volumetrics [{ ReportTableName := "geo" }]
        [("geo", { cols := [("Proj. real.", ["1"]), ("Zone", ["A"])] })] =
      .ok (some { cols := [("ZONE", ["A"])] }) := by
  constructor
  · exact (claim_C8 { ReportTableName := "missing" } []
      [("geo", { cols := [("Proj. real.", ["1"]), ("Zone", ["A"])] })]).1
      (by decide)
  · exact ((claim_C8 { ReportTableName := "geo" } []
      [("geo", { cols := [("Proj. real.", ["1"]), ("Zone", ["A"])] })]).2
      { cols := [("Proj. real.", ["1"]), ("Zone", ["A"])] } (by decide)
      { cols := [("ZONE", ["A"])] } (by decide)).1

/-- C9: when the named table exists but contains no `REAL` column after
the rename, the `KeyError` raised by the drop is caught by the same
handler as a missing table, and `get_volumetrics` still returns `None`. -/
theorem claim_C9 (entry : ReportEntry) (rest : List ReportEntry)
    (volumetric_tables : List (String × DataFrame)) (df : DataFrame)
    (hdf : volumetric_tables.lookup entry.ReportTableName = some df)
    (hreal : ((renameColumns df).cols.map Prod.fst).contains "REAL" = false) :
    get_volumetrics (entry :: rest) volumetric_tables = .ok none := by
  have hdrop : dropColumn (renameColumns df) "REAL" = none := by
    unfold dropColumn
    rw [hreal]
    simp
  simp only [get_volumetrics, List.head?_cons, hdf, hdrop]

/-- C9 witness: an existing table whose renamed columns have no `REAL`
silently degrades to `None`. -/
theorem claim_C9_witness :
    get_volumetrics [{ ReportTableName := "geo" }]
        [("geo", { cols := [("Zone", ["A"]), ("Bulk", ["2"])] })] =
      .ok none :=
  claim_C9 { ReportTableName := "geo" } []
    [("geo", { cols := [("Zone", ["A"]), ("Bulk", ["2"])] })]
    { cols := [("Zone", ["A"]), ("Bulk", ["2"])] } (by decide) (by decide)

/-- C10: with an empty report section, `report_params[0]` raises an
`IndexError` which the `except KeyError` handler does not catch: the run
aborts instead of yielding `table == None`. -/
theorem claim_C10 (volumetric_tables : List (String × DataFrame)) :
    get_volumetrics [] volumetric_tables = .error .indexError := rfl

end ExportHelpers
